import Mathlib

/-!
Verification of the log-analysis orchestration layer in
`PrivateGPT_Ollama_Python` (`src/main.py`).

Log lines are modelled as `List Char` (Python strings); the statistics
extractor `LogAnalyzer._analyze_statistics`, the template loader
`LogAnalyzer._load_prompt_template` (including the semantics of Python
`str.format` for the simple named replacement fields used here), the model
provisioner `LogAnalyzer.ensure_model_available` and the readiness loop
`LogAnalyzer.wait_for_server` are embedded as pure Lean functions; the
external Ollama client is abstracted as explicit parameters (probe outcomes,
model lists, pull success).
-/

deriving instance DecidableEq for Except

namespace PrivateGPT

/-- A log line: one Python string, modelled as its character list. -/
abbrev Line := List Char

/-- The `{` character, written via its code point. -/
def lbrace : Char := Char.ofNat 123

/-- The `}` character, written via its code point. -/
def rbrace : Char := Char.ofNat 125

/-- Python `str.find(c)` restricted to the case used by the source: the index
of the first occurrence of `c` (the source only calls `find` under an `in`
guard, so the `-1` absent case never feeds the slice; on an absent character
this model returns the length). -/
def strFind (c : Char) : Line → Nat
  | [] => 0
  | d :: rest => if d = c then 0 else strFind c rest + 1

/-- Python's substring operator `pat in s`: `pat` occurs contiguously in `s`. -/
def isSubstrOf (pat : Line) : Line → Bool
  | [] => pat.isPrefixOf []
  | c :: rest => pat.isPrefixOf (c :: rest) || isSubstrOf pat rest

/-- The mutable `LogStats` dataclass of `src/main.py`: total, per-severity
counts and the set of component tags.  The Python `set` is modelled as a
duplicate-free list (membership is all the claims use). -/
structure LogStats where
  total_logs : Nat
  errors : Nat
  warnings : Nat
  infos : Nat
  unique_components : List Line
  deriving Repr, DecidableEq

/-- Adding an element to the Python `set` `unique_components`. -/
def insertUnique (c : Line) (s : List Line) : List Line :=
  if c ∈ s then s else c :: s

/-- `component = log[log.find("[")+1:log.find("]")]` (src/main.py line 153).
Python's slice `log[a:b]` with `0 ≤ a, b` is `take (b-a) (drop a)`; with
truncated `Nat` subtraction this also yields `""` when `b ≤ a`, exactly as in
Python. -/
def extractComponent (log : Line) : Line :=
  (log.drop (strFind '[' log + 1)).take
    (strFind ']' log - (strFind '[' log + 1))

/-- `stats.total_logs += 1` (src/main.py line 143). -/
def incTotal (s : LogStats) : LogStats :=
  { s with total_logs := s.total_logs + 1 }

/-- The `if "ERROR" in log: ... elif "WARNING" ... elif "INFO" ...` ladder
(src/main.py lines 144-149). -/
def classify (s : LogStats) (log : Line) : LogStats :=
  if isSubstrOf "ERROR".data log then { s with errors := s.errors + 1 }
  else if isSubstrOf "WARNING".data log then { s with warnings := s.warnings + 1 }
  else if isSubstrOf "INFO".data log then { s with infos := s.infos + 1 }
  else s

/-- `if "[" in log and "]" in log: stats.unique_components.add(component)`
(src/main.py lines 152-154). -/
def addComponent (s : LogStats) (log : Line) : LogStats :=
  if '[' ∈ log ∧ ']' ∈ log then
    { s with unique_components := insertUnique (extractComponent log) s.unique_components }
  else s

/-- One iteration of the `for log in logs` loop of `_analyze_statistics`
(src/main.py lines 142-154). -/
def analyzeStep (s : LogStats) (log : Line) : LogStats :=
  addComponent (classify (incTotal s) log) log

/-- `LogAnalyzer._analyze_statistics` (src/main.py lines 137-156): the stats
record starts with `total_logs = len(logs)` and all other fields zero/empty,
then the loop runs over the lines. -/
def analyze_statistics (logs : List Line) : LogStats :=
  logs.foldl analyzeStep
    { total_logs := logs.length, errors := 0, warnings := 0, infos := 0,
      unique_components := [] }

/-! ### Python `str.format` and the template loader -/

/-- An error raised by Python `str.format`. -/
inductive FormatError where
  | keyError (missing : Line)
  | valueError
  deriving Repr, DecidableEq

/-- Core of Python `str.format` for the template shapes this program uses:
simple named replacement fields `\x7bname\x7d` with the braces escapable as
`\x7b\x7b` / `\x7d\x7d` (no conversion, format spec, indexing or
auto-numbering).  `acc` is `none` in literal text and `some` of the reversed
field name while scanning a field.  A field named `key` is replaced by
`value`; any other field name raises `KeyError`; stray or unclosed braces
raise `ValueError`, as in CPython. -/
def pyFormatAux (key value : Line) : Line → Option Line → Except FormatError Line
  | [], none => .ok []
  | [], some _ => .error .valueError
  | [c], none =>
    if c = lbrace then .error .valueError
    else if c = rbrace then .error .valueError
    else (fun t => c :: t) <$> pyFormatAux key value [] none
  | c :: d :: rest2, none =>
    if c = lbrace then
      if d = lbrace then (fun t => lbrace :: t) <$> pyFormatAux key value rest2 none
      else pyFormatAux key value (d :: rest2) (some [])
    else if c = rbrace then
      if d = rbrace then (fun t => rbrace :: t) <$> pyFormatAux key value rest2 none
      else .error .valueError
    else (fun t => c :: t) <$> pyFormatAux key value (d :: rest2) none
  | c :: rest, some acc =>
    if c = rbrace then
      if acc.reverse = key then (fun t => value ++ t) <$> pyFormatAux key value rest none
      else .error (.keyError acc.reverse)
    else if c = lbrace then .error .valueError
    else pyFormatAux key value rest (some (c :: acc))

/-- `template.format(key=value)` for one keyword argument. -/
def pyFormat (template key value : Line) : Except FormatError Line :=
  pyFormatAux key value template none

/-- How `_load_prompt_template` can fail (file-not-found is out of core
scope; the template text is taken as given). -/
inductive LoadError where
  | templateError
  | uncaughtValueError
  deriving Repr, DecidableEq

/-- `LogAnalyzer._load_prompt_template` (src/main.py lines 95-106), after the
file read: it runs `template.format(logs="test")`, returns the template
unchanged on success, and turns a `KeyError` into the fatal
`RuntimeError("Invalid prompt template: missing \x7blogs\x7d placeholder")`
(modelled as `templateError`).  A `ValueError` from `format` is not caught
and propagates as-is. -/
def load_prompt_template (template : Line) : Except LoadError Line :=
  match pyFormat template "logs".data "test".data with
  | .ok _ => .ok template
  | .error (.keyError _) => .error .templateError
  | .error .valueError => .error .uncaughtValueError

/-- Whether a template textually contains the `logs` placeholder token. -/
def hasLogsPlaceholder (template : Line) : Bool :=
  isSubstrOf (lbrace :: ("logs".data ++ [rbrace])) template

/-! ### Prompt assembly (`analyze_logs`) -/

/-- The f-string statistics block of `analyze_logs` (src/main.py lines
168-172). -/
def statsSummary (s : LogStats) : Line :=
  ("\nLog Statistics:\n".data) ++
  ("Total Logs: ".data ++ (Nat.repr s.total_logs).data ++ "\n".data) ++
  ("Errors: ".data ++ (Nat.repr s.errors).data ++ "\n".data) ++
  ("Warnings: ".data ++ (Nat.repr s.warnings).data ++ "\n".data) ++
  ("Info: ".data ++ (Nat.repr s.infos).data ++ "\n".data)

/-- Prompt construction inside `LogAnalyzer.analyze_logs` (src/main.py lines
158-176): compute the statistics, join the lines with `"\n"`, append the
statistics block and substitute the result for the template's `logs`
placeholder.  The generation call itself is an opaque external service and is
not modelled. -/
def build_prompt (template : Line) (logs : List Line) : Except FormatError Line :=
  let stats := analyze_statistics logs
  let formatted_logs := (logs.intersperse "\n".data).flatten
  let prompt_input := formatted_logs ++ "\n".data ++ statsSummary stats
  pyFormat template "logs".data prompt_input

/-! ### Model provisioner -/

/-- Outcome of `ensure_model_available`: which models were pulled (in order)
and whether the call succeeded. -/
structure ProvisionResult where
  pulls : List Line
  ok : Bool
  deriving Repr, DecidableEq

/-- `LogAnalyzer.ensure_model_available` (src/main.py lines 121-135), with
the Ollama client abstracted: `models` is the `models` list of a successful
`client.list()` response, each entry's optional `name` field as in
`m.get("name", "")`; `pullOk` says whether `client.pull` would succeed.  The
model is pulled exactly when its name is not among the listed names; a pull
failure becomes the fatal `RuntimeError` (here `ok = false`). -/
def ensure_model_available (models : List (Option Line)) (modelName : Line)
    (pullOk : Bool) : ProvisionResult :=
  let existing_models := models.map (fun m => m.getD [])
  if modelName ∈ existing_models then { pulls := [], ok := true }
  else { pulls := [modelName], ok := pullOk }

/-! ### Readiness loop -/

/-- One probe (`client.ps()`) outcome: success, a transient
`httpx.RequestError`, or any other exception. -/
inductive ProbeOutcome where
  | ok
  | connErr
  | otherErr
  deriving Repr, DecidableEq

/-- How `wait_for_server` can end. -/
inductive WaitOutcome where
  | success
  | serviceUnavailable
  | probeFailure
  deriving Repr, DecidableEq

/-- Trace of a `wait_for_server` run: number of probe calls, the backoff
sleeps performed (in order, in seconds), and the final outcome. -/
structure WaitResult where
  attempts : Nat
  sleeps : List Nat
  outcome : WaitOutcome
  deriving Repr, DecidableEq

/-- The `for attempt in range(max_retries)` loop of `wait_for_server`
(src/main.py lines 108-119): `attempt` is the current loop index, the second
argument the remaining iterations.  On success the function returns; on
`httpx.RequestError` it sleeps `2 ** attempt` and continues; any other
exception propagates immediately (`probeFailure`); an exhausted budget raises
`RuntimeError("Could not connect to Ollama server")` (`serviceUnavailable`). -/
def waitAux (probe : Nat → ProbeOutcome) : Nat → Nat → WaitResult
  | _, 0 => { attempts := 0, sleeps := [], outcome := .serviceUnavailable }
  | attempt, r + 1 =>
    match probe attempt with
    | .ok => { attempts := 1, sleeps := [], outcome := .success }
    | .otherErr => { attempts := 1, sleeps := [], outcome := .probeFailure }
    | .connErr =>
      let rest := waitAux probe (attempt + 1) r
      { attempts := rest.attempts + 1, sleeps := 2 ^ attempt :: rest.sleeps,
        outcome := rest.outcome }

/-- `LogAnalyzer.wait_for_server` (src/main.py lines 108-119) with
`max_retries` iterations, starting at attempt index 0. -/
def wait_for_server (probe : Nat → ProbeOutcome) (maxRetries : Nat) : WaitResult :=
  waitAux probe 0 maxRetries

/-! ### Basic lemmas about the statistics step -/

theorem classify_total_logs (s : LogStats) (log : Line) :
    (classify s log).total_logs = s.total_logs := by
  unfold classify
  repeat' split
  all_goals rfl

theorem classify_components (s : LogStats) (log : Line) :
    (classify s log).unique_components = s.unique_components := by
  unfold classify
  repeat' split
  all_goals rfl

theorem addComponent_total_logs (s : LogStats) (log : Line) :
    (addComponent s log).total_logs = s.total_logs := by
  unfold addComponent
  split
  all_goals rfl

theorem addComponent_errors (s : LogStats) (log : Line) :
    (addComponent s log).errors = s.errors := by
  unfold addComponent
  split
  all_goals rfl

theorem addComponent_warnings (s : LogStats) (log : Line) :
    (addComponent s log).warnings = s.warnings := by
  unfold addComponent
  split
  all_goals rfl

theorem addComponent_infos (s : LogStats) (log : Line) :
    (addComponent s log).infos = s.infos := by
  unfold addComponent
  split
  all_goals rfl

theorem analyzeStep_total_logs (s : LogStats) (log : Line) :
    (analyzeStep s log).total_logs = s.total_logs + 1 := by
  unfold analyzeStep
  rw [addComponent_total_logs, classify_total_logs]
  rfl

theorem foldl_analyzeStep_total_logs (logs : List Line) (s : LogStats) :
    (logs.foldl analyzeStep s).total_logs = s.total_logs + logs.length := by
  induction logs generalizing s with
  | nil => rfl
  | cons l rest ih =>
    rw [List.foldl_cons, ih, analyzeStep_total_logs, List.length_cons]
    omega

/-- C1: the spec says `Summarize(lines).total == len(lines)`, but
`_analyze_statistics` both initializes `total_logs = len(logs)` (line 140)
and increments `total_logs += 1` for every line of the loop (line 143), so
the computed total is `2 * len(logs)`; on the one-line input `["x"]` the
code returns `total_logs = 2` where the claim requires `1`. -/
theorem C1_total_counts_each_line_twice :
    (∀ logs : List Line, (analyze_statistics logs).total_logs = 2 * logs.length) ∧
    (analyze_statistics ["x".data]).total_logs = 2 := by
  constructor
  · intro logs
    unfold analyze_statistics
    rw [foldl_analyzeStep_total_logs]
    simp
    omega
  · rfl

/-- C6: each loop iteration of `_analyze_statistics` classifies the line by
testing the substrings `"ERROR"`, `"WARNING"`, `"INFO"` in that order and
increments exactly the first matching counter, so a line feeds at most one
of the three counts (a line containing both `"ERROR"` and `"WARNING"` only
increments `errors`). -/
theorem C6_first_match_wins :
    ∀ (s : LogStats) (log : Line),
    ((analyzeStep s log).errors =
      s.errors + (if isSubstrOf "ERROR".data log then 1 else 0)) ∧
    ((analyzeStep s log).warnings =
      s.warnings +
        (if ¬ isSubstrOf "ERROR".data log ∧ isSubstrOf "WARNING".data log
         then 1 else 0)) ∧
    ((analyzeStep s log).infos =
      s.infos +
        (if ¬ isSubstrOf "ERROR".data log ∧ ¬ isSubstrOf "WARNING".data log ∧
            isSubstrOf "INFO".data log
         then 1 else 0)) ∧
    (analyzeStep s log).errors + (analyzeStep s log).warnings +
        (analyzeStep s log).infos ≤ s.errors + s.warnings + s.infos + 1 := by
  intro s log
  have he : (analyzeStep s log).errors = (classify (incTotal s) log).errors := by
    unfold analyzeStep
    rw [addComponent_errors]
  have hw : (analyzeStep s log).warnings = (classify (incTotal s) log).warnings := by
    unfold analyzeStep
    rw [addComponent_warnings]
  have hi : (analyzeStep s log).infos = (classify (incTotal s) log).infos := by
    unfold analyzeStep
    rw [addComponent_infos]
  by_cases h1 : isSubstrOf "ERROR".data log
  · simp only [he, hw, hi, classify, h1, if_true, incTotal, h1]
    simp
    omega
  · by_cases h2 : isSubstrOf "WARNING".data log
    · simp only [he, hw, hi, classify, h1, h2, if_true, if_false, incTotal]
      simp [h1, h2]
      omega
    · by_cases h3 : isSubstrOf "INFO".data log
      · simp only [he, hw, hi, classify, h1, h2, h3, incTotal]
        simp [h1, h2, h3]
        omega
      · simp only [he, hw, hi, classify, h1, h2, h3, incTotal]
        simp [h1, h2, h3]

/-! ### Component extraction -/

theorem strFind_append_of_not_mem (c : Char) (a l : Line) (h : c ∉ a) :
    strFind c (a ++ l) = a.length + strFind c l := by
  induction a with
  | nil => simp [strFind]
  | cons d a ih =>
    have hd : d ≠ c := fun hdc => h (hdc ▸ List.mem_cons_self d a)
    have ha : c ∉ a := fun hca => h (List.mem_cons_of_mem d hca)
    have hstep : strFind c ((d :: a) ++ l) = strFind c (a ++ l) + 1 := by
      simp only [List.cons_append, strFind, if_neg hd]
      rfl
    rw [hstep, ih ha, List.length_cons]
    omega

theorem strFind_cons_self (c : Char) (l : Line) : strFind c (c :: l) = 0 := by
  simp [strFind]

theorem extractComponent_decomp (a b c : Line)
    (hla : '[' ∉ a) (hra : ']' ∉ a) (hrb : ']' ∉ b) :
    extractComponent (a ++ '[' :: (b ++ ']' :: c)) = b := by
  have hi : strFind '[' (a ++ '[' :: (b ++ ']' :: c)) = a.length := by
    rw [strFind_append_of_not_mem '[' a _ hla, strFind_cons_self]
    omega
  have hj : strFind ']' (a ++ '[' :: (b ++ ']' :: c)) =
      a.length + b.length + 1 := by
    rw [strFind_append_of_not_mem ']' a _ hra]
    have hmid : strFind ']' ('[' :: (b ++ ']' :: c)) = b.length + 1 := by
      simp only [strFind, if_neg (by decide : ('[' : Char) ≠ ']')]
      rw [strFind_append_of_not_mem ']' b _ hrb, strFind_cons_self]
    rw [hmid]
    all_goals omega
  unfold extractComponent
  rw [hi, hj]
  have hd : (a ++ '[' :: (b ++ ']' :: c)).drop (a.length + 1) = b ++ ']' :: c := by
    have : a ++ '[' :: (b ++ ']' :: c) = (a ++ ['[']) ++ (b ++ ']' :: c) := by
      simp
    rw [this, show a.length + 1 = (a ++ ['[']).length by simp, List.drop_left]
  rw [hd, show a.length + b.length + 1 - (a.length + 1) = b.length by omega,
    show (b ++ ']' :: c).take b.length = b from List.take_left b (']' :: c)]

theorem addComponent_of_not_both (s : LogStats) (line : Line)
    (h : '[' ∉ line ∨ ']' ∉ line) :
    (addComponent s line).unique_components = s.unique_components := by
  unfold addComponent
  rw [if_neg]
  rintro ⟨h1, h2⟩
  rcases h with h | h
  · exact h h1
  · exact h h2

theorem addComponent_of_both (s : LogStats) (line : Line)
    (h1 : '[' ∈ line) (h2 : ']' ∈ line) :
    (addComponent s line).unique_components =
      insertUnique (extractComponent line) s.unique_components := by
  unfold addComponent
  rw [if_pos ⟨h1, h2⟩]

theorem mem_insertUnique_self (c : Line) (s : List Line) :
    c ∈ insertUnique c s := by
  unfold insertUnique
  split
  · assumption
  · exact List.mem_cons_self c s

/-- C7: for a line whose first `[` precedes its first `]`, the component
added is exactly the text strictly between those two brackets, whatever the
severity classification did; a line missing either bracket leaves the
component set unchanged; and whenever both brackets occur, the extracted
component is added to the set, independent of the classification. -/
theorem C7_component_between_first_brackets :
    (∀ (a b c : Line), '[' ∉ a → ']' ∉ a → ']' ∉ b →
      extractComponent (a ++ '[' :: (b ++ ']' :: c)) = b) ∧
    (∀ (s : LogStats) (line : Line), ('[' ∉ line ∨ ']' ∉ line) →
      (analyzeStep s line).unique_components = s.unique_components) ∧
    (∀ (s : LogStats) (line : Line), '[' ∈ line → ']' ∈ line →
      (analyzeStep s line).unique_components =
        insertUnique (extractComponent line) s.unique_components) := by
  refine ⟨extractComponent_decomp, ?_, ?_⟩
  · intro s line h
    unfold analyzeStep
    rw [addComponent_of_not_both _ _ h, classify_components]
    rfl
  · intro s line h1 h2
    unfold analyzeStep
    rw [addComponent_of_both _ _ h1 h2, classify_components]
    rfl

/-- Witness for C7 at concrete inputs. -/
theorem C7_component_between_first_brackets_witness :
    extractComponent "ab[core]xy".data = "core".data ∧
    (analyzeStep ⟨0, 0, 0, 0, []⟩ "no brackets".data).unique_components = [] ∧
    (analyzeStep ⟨0, 0, 0, 0, []⟩ "ab[core]xy".data).unique_components =
      ["core".data] := by
  refine ⟨?_, ?_, ?_⟩
  · have h := C7_component_between_first_brackets.1 "ab".data "core".data "xy".data
      (by decide) (by decide) (by decide)
    exact h
  · have h := C7_component_between_first_brackets.2.1 ⟨0, 0, 0, 0, []⟩
      "no brackets".data (Or.inl (by decide))
    rw [h]
  · have h := C7_component_between_first_brackets.2.2 ⟨0, 0, 0, 0, []⟩
      "ab[core]xy".data (by decide) (by decide)
    rw [h]
    decide

/-- C10: when a line has both brackets but its first `]` is at or before its
first `[`, the Python slice `log[find("[")+1:find("]")]` is empty, so the
empty string is added to the component set; the line is not skipped and no
later `]` is searched for. -/
theorem C10_inverted_brackets_add_empty_component :
    ∀ (s : LogStats) (line : Line), '[' ∈ line → ']' ∈ line →
    strFind ']' line ≤ strFind '[' line →
    extractComponent line = [] ∧
    (analyzeStep s line).unique_components =
      insertUnique [] s.unique_components ∧
    [] ∈ (analyzeStep s line).unique_components := by
  intro s line h1 h2 hle
  have hext : extractComponent line = [] := by
    unfold extractComponent
    rw [show strFind ']' line - (strFind '[' line + 1) = 0 by omega]
    exact List.take_zero _
  refine ⟨hext, ?_, ?_⟩
  · unfold analyzeStep
    rw [addComponent_of_both _ _ h1 h2, classify_components, hext]
    rfl
  · unfold analyzeStep
    rw [addComponent_of_both _ _ h1 h2, classify_components, hext]
    exact mem_insertUnique_self [] _

/-- Witness for C10 on the line `"]x["`. -/
theorem C10_inverted_brackets_add_empty_component_witness :
    extractComponent "]x[".data = [] ∧
    [] ∈ (analyzeStep ⟨0, 0, 0, 0, []⟩ "]x[".data).unique_components := by
  have h := C10_inverted_brackets_add_empty_component ⟨0, 0, 0, 0, []⟩
    "]x[".data (by decide) (by decide) (by decide)
  exact ⟨h.1, h.2.2⟩

/-! ### Template validation and prompt assembly -/

/-- C2: the spec requires every template without the `logs` placeholder to
be rejected with a `TemplateError`, but `_load_prompt_template` validates by
running `template.format(logs="test")`, and Python's `str.format` silently
ignores surplus keyword arguments: a template with no replacement field at
all (here `"Analyze the logs."`) formats successfully and is accepted, so
the validation only catches templates that mention some *other* field. -/
theorem C2_placeholder_free_template_accepted :
    hasLogsPlaceholder "Analyze the logs.".data = false ∧
    load_prompt_template "Analyze the logs.".data =
      .ok "Analyze the logs.".data ∧
    load_prompt_template ("Logs: ".data ++ lbrace :: ("other".data ++ [rbrace])) =
      .error .templateError := by
  refine ⟨by decide, by decide, by decide⟩

/-- C3: on the end-to-end scenario (template `"Logs:\n\x7blogs\x7d"` and the
two sample lines) the rendered prompt does contain both literal lines and no
`\x7blogs\x7d` token remains, but because `_analyze_statistics` double-counts
the total (line 140 initializes it to `len(logs)` and line 143 increments it
again per line), the computed statistics are `\x7btotal: 4, errors: 1,
warnings: 0, infos: 1\x7d`, not the `total: 2` the spec requires — the prompt
also embeds the wrong text `"Total Logs: 4"`. -/
theorem C3_end_to_end_total_is_four :
    analyze_statistics
        ["2024-01-20 10:15:23 INFO Server started".data,
         "2024-01-20 10:15:24 ERROR Database connection failed".data] =
      { total_logs := 4, errors := 1, warnings := 0, infos := 1,
        unique_components := [] } ∧
    ((build_prompt ("Logs:\n".data ++ lbrace :: ("logs".data ++ [rbrace]))
        ["2024-01-20 10:15:23 INFO Server started".data,
         "2024-01-20 10:15:24 ERROR Database connection failed".data]).toOption.map
      (fun p =>
        (isSubstrOf "2024-01-20 10:15:23 INFO Server started".data p,
         isSubstrOf "2024-01-20 10:15:24 ERROR Database connection failed".data p,
         isSubstrOf (lbrace :: ("logs".data ++ [rbrace])) p,
         isSubstrOf "Total Logs: 4".data p))) =
      some (true, true, false, true) := by
  refine ⟨by decide, by decide⟩

/-! ### Model provisioner -/

/-- C4: `ensure_model_available` is idempotent — when the configured model
name occurs among the names of `client.list()` it pulls nothing and
succeeds; when it is absent it pulls exactly that one model and succeeds
whenever the pull succeeds. -/
theorem C4_provisioner_pulls_iff_absent :
    ∀ (models : List (Option Line)) (name : Line) (pullOk : Bool),
    (name ∈ models.map (fun m => m.getD []) →
      ensure_model_available models name pullOk = { pulls := [], ok := true }) ∧
    (name ∉ models.map (fun m => m.getD []) →
      (ensure_model_available models name pullOk).pulls = [name] ∧
      (pullOk = true → (ensure_model_available models name pullOk).ok = true)) := by
  intro models name pullOk
  constructor
  · intro hmem
    unfold ensure_model_available
    rw [if_pos hmem]
  · intro hmem
    unfold ensure_model_available
    rw [if_neg hmem]
    exact ⟨rfl, fun h => h⟩

/-- Witness for C4: a listed model is not pulled; an absent one is pulled
once. -/
theorem C4_provisioner_pulls_iff_absent_witness :
    ensure_model_available [some "llama3.1:8b".data] "llama3.1:8b".data false =
      { pulls := [], ok := true } ∧
    (ensure_model_available [] "llama3.1:8b".data true).pulls =
      ["llama3.1:8b".data] :=
  ⟨(C4_provisioner_pulls_iff_absent [some "llama3.1:8b".data]
      "llama3.1:8b".data false).1 (by decide),
   ((C4_provisioner_pulls_iff_absent [] "llama3.1:8b".data true).2
      (by decide)).1⟩

/-- C8: on an empty `models` list the provisioner treats the model as absent
and pulls it; the comprehension over the empty list (src/main.py line 126)
involves no indexing, so the function is total there and its result is fully
determined — one pull, success iff the pull succeeds. -/
theorem C8_empty_model_list_pulls :
    ∀ (name : Line) (pullOk : Bool),
    ensure_model_available [] name pullOk = { pulls := [name], ok := pullOk } := by
  intro name pullOk
  unfold ensure_model_available
  rw [if_neg (by simp)]

/-! ### Readiness loop -/

theorem waitAux_all_connErr (r : Nat) :
    ∀ (a : Nat) (probe : Nat → ProbeOutcome),
    (∀ i, i < r → probe (a + i) = .connErr) →
    waitAux probe a r =
      { attempts := r, sleeps := (List.range r).map (fun i => 2 ^ (a + i)),
        outcome := .serviceUnavailable } := by
  induction r with
  | zero => intro a probe _; rfl
  | succ r ih =>
    intro a probe h
    have h0 : probe a = .connErr := by
      have := h 0 (Nat.succ_pos r)
      simpa using this
    have hrest := ih (a + 1) probe (fun i hi => by
      have := h (i + 1) (by omega)
      rwa [show a + (i + 1) = a + 1 + i by omega] at this)
    simp only [waitAux, h0, hrest]
    have hfun : ((fun i => 2 ^ (a + 1 + i)) : Nat → Nat) =
        (fun i => 2 ^ (a + i)) ∘ Nat.succ := by
      funext i
      simp only [Function.comp_apply]
      rw [show a + 1 + i = a + Nat.succ i by omega]
    rw [List.range_succ_eq_map, List.map_cons, List.map_map, hfun]
    simp

theorem waitAux_first_ok (kp : Nat) :
    ∀ (a r : Nat) (probe : Nat → ProbeOutcome), kp + 1 ≤ r →
    (∀ i, i < kp → probe (a + i) = .connErr) → probe (a + kp) = .ok →
    (waitAux probe a r).attempts = kp + 1 ∧
    (waitAux probe a r).outcome = .success := by
  induction kp with
  | zero =>
    intro a r probe hr _ hok
    obtain ⟨r', rfl⟩ : ∃ r', r = r' + 1 := ⟨r - 1, by omega⟩
    rw [show a + 0 = a from rfl] at hok
    simp [waitAux, hok]
  | succ kp ih =>
    intro a r probe hr hfail hok
    obtain ⟨r', rfl⟩ : ∃ r', r = r' + 1 := ⟨r - 1, by omega⟩
    have h0 : probe a = .connErr := by
      have := hfail 0 (Nat.succ_pos kp)
      simpa using this
    have hrec := ih (a + 1) r' probe (by omega)
      (fun i hi => by
        have := hfail (i + 1) (by omega)
        rwa [show a + (i + 1) = a + 1 + i by omega] at this)
      (by rwa [show a + 1 + kp = a + (kp + 1) by omega])
    simp only [waitAux, h0]
    exact ⟨by rw [hrec.1], hrec.2⟩

theorem waitAux_other_err (j : Nat) :
    ∀ (a r : Nat) (probe : Nat → ProbeOutcome), j < r →
    (∀ i, i < j → probe (a + i) = .connErr) → probe (a + j) = .otherErr →
    (waitAux probe a r).attempts = j + 1 ∧
    (waitAux probe a r).outcome = .probeFailure := by
  induction j with
  | zero =>
    intro a r probe hr _ herr
    obtain ⟨r', rfl⟩ : ∃ r', r = r' + 1 := ⟨r - 1, by omega⟩
    rw [show a + 0 = a from rfl] at herr
    simp [waitAux, herr]
  | succ j ih =>
    intro a r probe hr hfail herr
    obtain ⟨r', rfl⟩ : ∃ r', r = r' + 1 := ⟨r - 1, by omega⟩
    have h0 : probe a = .connErr := by
      have := hfail 0 (Nat.succ_pos j)
      simpa using this
    have hrec := ih (a + 1) r' probe (by omega)
      (fun i hi => by
        have := hfail (i + 1) (by omega)
        rwa [show a + (i + 1) = a + 1 + i by omega] at this)
      (by rwa [show a + 1 + j = a + (j + 1) by omega])
    simp only [waitAux, h0]
    exact ⟨by rw [hrec.1], hrec.2⟩

/-- C5: with retry budget `N ≥ 1`, an always-failing (transient) probe is
attempted exactly `N` times, with a sleep of `2^attempt` seconds after each
failed attempt (`attempt = 0, 1, …, N-1`), and the loop then fails with the
`ServiceUnavailable` runtime error; if the probe first succeeds on attempt
`k ≤ N` (1-based), exactly `k` attempts happen and the loop returns
success. -/
theorem C5_backoff_and_attempt_counts :
    ∀ (N : Nat) (probe : Nat → ProbeOutcome), 1 ≤ N →
    ((∀ i, i < N → probe i = .connErr) →
      wait_for_server probe N =
        { attempts := N, sleeps := (List.range N).map (fun i => 2 ^ i),
          outcome := .serviceUnavailable }) ∧
    (∀ k, 1 ≤ k → k ≤ N → (∀ i, i < k - 1 → probe i = .connErr) →
      probe (k - 1) = .ok →
      (wait_for_server probe N).attempts = k ∧
      (wait_for_server probe N).outcome = .success) := by
  intro N probe _
  constructor
  · intro h
    unfold wait_for_server
    rw [waitAux_all_connErr N 0 probe (fun i hi => by simpa using h i hi)]
    have hfun : ((fun i => 2 ^ (0 + i)) : Nat → Nat) = fun i => 2 ^ i := by
      funext i
      rw [Nat.zero_add]
    rw [hfun]
  · intro k hk1 hkN hfail hok
    have h := waitAux_first_ok (k - 1) 0 N probe (by omega)
      (fun i hi => by simpa using hfail i hi) (by simpa using hok)
    unfold wait_for_server
    rw [show k - 1 + 1 = k by omega] at h
    exact h

/-- Witness for C5: budget 2 with an always-failing probe gives two attempts,
sleeps `[1, 2]` and `ServiceUnavailable`; a probe succeeding on attempt 2 of
budget 3 gives two attempts and success. -/
theorem C5_backoff_and_attempt_counts_witness :
    wait_for_server (fun _ => .connErr) 2 =
      { attempts := 2, sleeps := [1, 2], outcome := .serviceUnavailable } ∧
    (wait_for_server (fun i => if i = 1 then .ok else .connErr) 3).attempts = 2 ∧
    (wait_for_server (fun i => if i = 1 then .ok else .connErr) 3).outcome =
      .success := by
  refine ⟨?_, ?_⟩
  · have h := (C5_backoff_and_attempt_counts 2 (fun _ => .connErr)
      (by decide)).1 (fun i _ => rfl)
    rw [h]
    decide
  · exact (C5_backoff_and_attempt_counts 3
      (fun i => if i = 1 then .ok else .connErr) (by decide)).2 2
      (by decide) (by decide) (by decide) (by decide)

/-- C9: only the transient `httpx.RequestError` is retried; if the probe
raises any other error on attempt `j` (after `j` transient failures), the
loop stops right there — `j + 1` attempts in total — and that error
propagates to the caller as the `probeFailure` outcome, distinct from
`ServiceUnavailable`. -/
theorem C9_nontransient_error_not_retried :
    ∀ (N j : Nat) (probe : Nat → ProbeOutcome), j < N →
    (∀ i, i < j → probe i = .connErr) → probe j = .otherErr →
    (wait_for_server probe N).attempts = j + 1 ∧
    (wait_for_server probe N).outcome = .probeFailure := by
  intro N j probe hj hfail herr
  exact waitAux_other_err j 0 N probe hj
    (fun i hi => by simpa using hfail i hi) (by simpa using herr)

/-- Witness for C9: a probe raising a non-transient error on its second
attempt under budget 3 stops after two attempts with the probe's own
failure. -/
theorem C9_nontransient_error_not_retried_witness :
    (wait_for_server (fun i => if i = 1 then .otherErr else .connErr) 3).attempts
      = 2 ∧
    (wait_for_server (fun i => if i = 1 then .otherErr else .connErr) 3).outcome
      = .probeFailure :=
  C9_nontransient_error_not_retried 3 1
    (fun i => if i = 1 then .otherErr else .connErr)
    (by decide) (by decide) (by decide)

end PrivateGPT
